import Mathlib

/-!
Verification development for the swing-signal bot (`bot.py`).

The indicator engine and signal evaluator of the bot are shallowly embedded
here.  pandas float columns are modelled as sequences of `FVal`: either a
rational number (`val`), missing data (`nan`, IEEE NaN), or positive
infinity (`inf`).  All quantities produced by this program are nonnegative
wherever an infinity can arise (the only division is `gain/loss` of
nonnegative rolling means), so negative infinity is not representable; the
operation cases that would produce it in IEEE arithmetic are unreachable in
this development and are mapped to `nan`.
-/

/-- A pandas float cell: a rational value, NaN, or +infinity. -/
inductive FVal where
  | nan : FVal
  | inf : FVal
  | val (q : ℚ) : FVal
deriving DecidableEq, Repr, Inhabited

namespace FVal

/-- IEEE addition restricted to the values reachable in this program
(no negative infinity): NaN propagates, infinity absorbs. -/
def add : FVal → FVal → FVal
  | nan, _ => nan
  | _, nan => nan
  | inf, _ => inf
  | _, inf => inf
  | val a, val b => val (a + b)

/-- IEEE subtraction restricted to the values reachable in this program.
`val - inf` would be negative infinity, which cannot arise here (see the
file header); it is mapped to `nan`. -/
def sub : FVal → FVal → FVal
  | nan, _ => nan
  | _, nan => nan
  | inf, inf => nan
  | inf, val _ => inf
  | val _, inf => nan
  | val a, val b => val (a - b)

/-- IEEE division for the nonnegative fragment: `a/0 = +inf` for `a ≠ 0`
(all dividends in this program are nonnegative), `0/0 = NaN`,
`finite / inf = 0`, `inf / finite = inf` (all divisors here nonnegative). -/
def div : FVal → FVal → FVal
  | nan, _ => nan
  | _, nan => nan
  | inf, inf => nan
  | inf, val _ => inf
  | val _, inf => val 0
  | val a, val b => if b = 0 then (if a = 0 then nan else inf) else val (a / b)

/-- IEEE `<` as a boolean: any comparison with NaN is false. -/
def ltB : FVal → FVal → Bool
  | val a, val b => decide (a < b)
  | val _, inf => true
  | inf, _ => false
  | nan, _ => false
  | _, nan => false

/-- IEEE `≤` as a boolean: any comparison with NaN is false. -/
def leB : FVal → FVal → Bool
  | val a, val b => decide (a ≤ b)
  | val _, inf => true
  | inf, inf => true
  | inf, val _ => false
  | nan, _ => false
  | _, nan => false

/-- IEEE `>` as a boolean. -/
def gtB (a b : FVal) : Bool := ltB b a

end FVal

/-!
### The pandas `ewm(..., adjust=False).mean()` kernel

`Series.ewm(span=w, adjust=False).mean()` (used by `calculate_ema`,
`calculate_macd` and for `RSI_EMA_20`) runs the recursive kernel below
(pandas `window/aggregations.pyx`, `ewm` with `adjust=False`,
`ignore_na=False`, unit deltas, `minp = 1`): the state is the running
weighted average plus the relative weight `old_wt` of the old average.
The first observation seeds the average; before it the output is NaN; a
NaN input leaves the average unchanged (the output repeats it) but decays
`old_wt` by `1-α`; an observation updates
`avg ← (old_wt*avg + α*cur)/(old_wt + α)` and resets `old_wt` to 1.
(The pandas guard `if weighted_avg != cur` skips the update on equal
values; in exact rational arithmetic the update formula is the identity in
that case, so the guard is omitted.) -/
def ewmStep (α : ℚ) : FVal × ℚ → FVal → FVal × ℚ
  | (FVal.nan, w), cur =>
      match cur with
      | FVal.nan => (FVal.nan, w)
      | c => (c, w)
  | (avg, w), cur =>
      match cur with
      | FVal.nan => (avg, w * (1 - α))
      | FVal.val c =>
          match avg with
          | FVal.val v => (FVal.val ((w * (1 - α) * v + α * c) / (w * (1 - α) + α)), 1)
          | x => (x, 1)
      | FVal.inf => (FVal.inf, 1)

/-- State of the pandas ewm kernel after consuming inputs `x 0 .. x i`. -/
def ewmStates (α : ℚ) (x : ℕ → FVal) : ℕ → FVal × ℚ
  | 0 => (x 0, 1)
  | i + 1 => ewmStep α (ewmStates α x i) (x (i + 1))

/-- Output of `ewm(adjust=False).mean()` at index `i`. -/
def ewmMean (α : ℚ) (x : ℕ → FVal) (i : ℕ) : FVal := (ewmStates α x i).1

/-- pandas `span` parametrisation: `α = 2/(span+1)`. -/
def spanAlpha (w : ℕ) : ℚ := 2 / (w + 1)

/-!
### Data model

One fetched price/volume series (`stock.history(...)`): aligned columns of
dates, closes and volumes.  Timestamps are modelled as integers.
-/

structure MarketData where
  dates : List ℤ
  closes : List ℚ
  volumes : List ℚ
deriving Repr

/-- `data['Close']` at positional index `i` (in-bounds reads only are used). -/
def closeAt (d : MarketData) (i : ℕ) : ℚ := d.closes.getD i 0

/-- `data['Volume']` at positional index `i`. -/
def volAt (d : MarketData) (i : ℕ) : ℚ := d.volumes.getD i 0

/-- Bar timestamp at positional index `i`. -/
def dateAt (d : MarketData) (i : ℕ) : ℤ := d.dates.getD i 0

/-- The `Close` column as an FVal sequence (close prices are never NaN). -/
def closeF (d : MarketData) (i : ℕ) : FVal := FVal.val (closeAt d i)

/-- `calculate_ema(data, window) = data['Close'].ewm(span=window, adjust=False).mean()`. -/
def calculate_ema (d : MarketData) (window : ℕ) (i : ℕ) : FVal :=
  ewmMean (spanAlpha window) (closeF d) i

/-!
### RSI (`calculate_rsi`)

`delta = data['Close'].diff()` is NaN at index 0.  `delta.where(delta > 0, 0)`
replaces every entry whose condition is False — including the NaN at index
0, since `NaN > 0` is False — by `0`, so the gain and loss series are
NaN-free and treat the first delta as zero.  `rolling(window).mean()` with
the default `min_periods = window` is then NaN until `window` observations
exist, i.e. at indices `< window - 1`.
-/

/-- `gain = delta.where(delta > 0, 0)`, with the index-0 NaN delta coerced to 0. -/
def gain (d : MarketData) (i : ℕ) : ℚ :=
  if i = 0 then 0
  else if closeAt d i - closeAt d (i - 1) > 0 then closeAt d i - closeAt d (i - 1) else 0

/-- `loss = -delta.where(delta < 0, 0)`, with the index-0 NaN delta coerced to 0. -/
def loss (d : MarketData) (i : ℕ) : ℚ :=
  if i = 0 then 0
  else if closeAt d i - closeAt d (i - 1) < 0 then -(closeAt d i - closeAt d (i - 1)) else 0

/-- `rolling(window=w).mean()` over a NaN-free series: NaN until the window
is full (`i < w - 1`), afterwards the arithmetic mean of the last `w` entries. -/
def rollingMean (w : ℕ) (x : ℕ → ℚ) (i : ℕ) : FVal :=
  if i + 1 < w then FVal.nan
  else FVal.val ((((List.range w).map fun j => x (i - j)).sum) / w)

/-- Rolling mean of gains (`gain.rolling(window).mean()`). -/
def gainMean (d : MarketData) (w : ℕ) (i : ℕ) : FVal := rollingMean w (gain d) i

/-- Rolling mean of losses (`loss.rolling(window).mean()`). -/
def lossMean (d : MarketData) (w : ℕ) (i : ℕ) : FVal := rollingMean w (loss d) i

/-- `rs = gain / loss` with float division semantics. -/
def rs (d : MarketData) (w : ℕ) (i : ℕ) : FVal := FVal.div (gainMean d w i) (lossMean d w i)

/-- `calculate_rsi`: `100 - (100 / (1 + rs))`. -/
def calculate_rsi (d : MarketData) (w : ℕ) (i : ℕ) : FVal :=
  FVal.sub (FVal.val 100) (FVal.div (FVal.val 100) (FVal.add (FVal.val 1) (rs d w i)))

/-- `data['RSI_EMA_20'] = data['RSI'].ewm(span=20, adjust=False).mean()`. -/
def rsi_ema_20 (d : MarketData) (i : ℕ) : FVal :=
  ewmMean (spanAlpha 20) (calculate_rsi d 14) i

/-!
### MACD (`calculate_macd`)
-/

/-- `macd_line = ema12 - ema26` on the close column. -/
def macd_line (d : MarketData) (i : ℕ) : FVal :=
  FVal.sub (calculate_ema d 12 i) (calculate_ema d 26 i)

/-- `signal_line = macd_line.ewm(span=9, adjust=False).mean()`. -/
def signal_line (d : MarketData) (i : ℕ) : FVal :=
  ewmMean (spanAlpha 9) (macd_line d) i

/-- `histogram = macd_line - signal_line`. -/
def macd_hist (d : MarketData) (i : ℕ) : FVal :=
  FVal.sub (macd_line d i) (signal_line d i)

/-!
### Rule conditions

Shared verbatim between `check_daily_strategy` (evaluated at the final
index) and `backtest_strategy` (evaluated at each `i` in `range(50, len)`),
except for the volume baseline: the backtest uses `Volume.iloc[i-5:i-1]`
(positions `i-5 .. i-2`), while the live check uses `Volume.iloc[-5:-1]`,
which at the final index `i = N-1` is positions `N-5 .. N-2 = i-4 .. i-1`.
-/

/-- `condition1`: close crosses above the 50-EMA on the evaluated bar. -/
def condition1 (d : MarketData) (i : ℕ) : Bool :=
  FVal.gtB (closeF d i) (calculate_ema d 50 i)
    && FVal.leB (closeF d (i - 1)) (calculate_ema d 50 (i - 1))

/-- `condition2`: the 50-EMA is above both the 9-EMA and the 21-EMA. -/
def condition2 (d : MarketData) (i : ℕ) : Bool :=
  FVal.gtB (calculate_ema d 50 i) (calculate_ema d 9 i)
    && FVal.gtB (calculate_ema d 50 i) (calculate_ema d 21 i)

/-- `condition3`: `40 <= RSI <= 70 and RSI > RSI_EMA_20`. -/
def condition3 (d : MarketData) (i : ℕ) : Bool :=
  FVal.leB (FVal.val 40) (calculate_rsi d 14 i)
    && FVal.leB (calculate_rsi d 14 i) (FVal.val 70)
    && FVal.gtB (calculate_rsi d 14 i) (rsi_ema_20 d i)

/-- `condition4`: `MACD_Hist > 0`. -/
def condition4 (d : MarketData) (i : ℕ) : Bool :=
  FVal.gtB (macd_hist d i) (FVal.val 0)

/-- Backtest volume baseline `data['Volume'].iloc[i-5:i-1].mean()`:
mean of the volumes at positions `i-5 .. i-2`. -/
def avgVolBacktest (d : MarketData) (i : ℕ) : ℚ :=
  (((List.range 4).map fun j => volAt d (i - 2 - j)).sum) / 4

/-- Live-check volume baseline `data['Volume'].iloc[-5:-1].mean()`:
mean of the volumes at positions `N-5 .. N-2` for `N = len(data)`. -/
def avgVolLive (d : MarketData) : ℚ :=
  (((List.range 4).map fun j => volAt d (d.closes.length - 2 - j)).sum) / 4

/-- Backtest `volume_condition`: `latest['Volume'] > avg_volume_4`. -/
def volume_condition_bt (d : MarketData) (i : ℕ) : Bool :=
  decide (volAt d i > avgVolBacktest d i)

/-- Live-check `volume_condition` at the final bar. -/
def volume_condition_live (d : MarketData) : Bool :=
  decide (volAt d (d.closes.length - 1) > avgVolLive d)

/-- The backtest verdict at index `i`:
`all([condition1, condition2, condition3, condition4, volume_condition])`. -/
def backtest_signal (d : MarketData) (i : ℕ) : Bool :=
  condition1 d i && condition2 d i && condition3 d i && condition4 d i
    && volume_condition_bt d i

/-- The live verdict, evaluated at the final index `N-1`. -/
def live_signal (d : MarketData) : Bool :=
  condition1 d (d.closes.length - 1) && condition2 d (d.closes.length - 1)
    && condition3 d (d.closes.length - 1) && condition4 d (d.closes.length - 1)
    && volume_condition_live d

/-!
### Live check (`check_daily_strategy`)

The function never lets an exception escape: the whole body runs inside a
`try`, and the `except` branch returns `(False, "Error checking ..", None)`.
Fetching is external, so it enters the model as an `Except` input; the
message strings are abstracted into the constructors below (their payloads
determine the concrete strings in the source).
-/

/-- The message field of the live-check result:
`"Insufficient data"`, the caught-exception string
`"Error checking {ticker}: {e}"`, or the formatted `STRONG BUY` block
(carrying date, close price and RSI as printed). -/
inductive LiveMessage where
  | insufficientData : LiveMessage
  | errorChecking (e : String) : LiveMessage
  | buySignal (date : ℤ) (close : ℚ) (rsi : FVal) : LiveMessage
deriving DecidableEq, Repr

/-- `check_daily_strategy`: returns `(has_signal, message, chart)`.
The chart buffer is abstracted to `Option Unit` (null / non-null). -/
def check_daily_strategy (fetch : Except String MarketData) :
    Bool × Option LiveMessage × Option Unit :=
  match fetch with
  | Except.error e => (false, some (LiveMessage.errorChecking e), none)
  | Except.ok d =>
      if d.closes.length < 50 then (false, some LiveMessage.insufficientData, none)
      else if live_signal d then
        (true,
         some (LiveMessage.buySignal (dateAt d (d.closes.length - 1))
            (closeAt d (d.closes.length - 1))
            (calculate_rsi d 14 (d.closes.length - 1))),
         some ())
      else (false, none, none)

/-!
### Backtest (`backtest_strategy`)
-/

/-- One iteration of the backtest loop: append `(date, close)` to the
accumulated signal list when the verdict at `i` is positive. -/
def backtestAccum (d : MarketData) (acc : List (ℤ × ℚ)) (i : ℕ) : List (ℤ × ℚ) :=
  if backtest_signal d i then acc ++ [(dateAt d i, closeAt d i)] else acc

/-- The signal accumulation loop of `backtest_strategy`:
`for i in range(50, len(data)): ... signals.append((date, close))`. -/
def backtest_signals (d : MarketData) : List (ℤ × ℚ) :=
  (List.range' 50 (d.closes.length - 50)).foldl (backtestAccum d) []

/-- The four distinguishable outcomes of `backtest_strategy` (in the source
they are four distinct reply strings). -/
inductive BacktestResult where
  | notEnoughData : BacktestResult
  | noSignals : BacktestResult
  | signals (xs : List (ℤ × ℚ)) : BacktestResult
  | error (e : String) : BacktestResult
deriving DecidableEq, Repr

/-- `backtest_strategy`: insufficient data below 50 bars, otherwise the
accumulated signal list (empty list reported as the distinct
`"No signals found"` outcome); a raised fetch exception is caught and
reported as the error outcome. -/
def backtest_strategy (fetch : Except String MarketData) : BacktestResult :=
  match fetch with
  | Except.error e => BacktestResult.error e
  | Except.ok d =>
      if d.closes.length < 50 then BacktestResult.notEnoughData
      else if backtest_signals d = [] then BacktestResult.noSignals
      else BacktestResult.signals (backtest_signals d)

/-!
### Batch scan (`send_auto_signals`)

The per-ticker pipeline (fetch, evaluate, deliver) is abstracted as an
oracle `step`; an exception anywhere in one ticker's pipeline is modelled
as `Except.error`.  The source loop catches it, logs, and `continue`s, so
the fold below skips the ticker and proceeds; positive verdicts append a
notification and bump the signal counter; the end-of-scan summary message
is sent exactly when the counter stayed 0. -/
def scanStep (step : String → Except String (Bool × Option LiveMessage × Option Unit))
    (acc : List (String × Option LiveMessage) × ℕ) (t : String) :
    List (String × Option LiveMessage) × ℕ :=
  match step t with
  | Except.error _ => acc
  | Except.ok (has, msg, _) =>
      if has then (acc.1 ++ [(t, msg)], acc.2 + 1) else acc

/-- The scan loop itself: the delivered notifications (in watchlist order)
and whether the end-of-scan `"No buy signals found today."` summary is
sent (`signals_found == 0`). -/
def send_auto_signals
    (step : String → Except String (Bool × Option LiveMessage × Option Unit))
    (watchlist : List String) : List (String × Option LiveMessage) × Bool :=
  let r := watchlist.foldl (scanStep step) ([], 0)
  (r.1, r.2 == 0)

/-!
### Indicator augmentation

`check_daily_strategy` / `backtest_strategy` assign eight indicator columns
onto the fetched frame; a row of the augmented frame is collected below.
Column assignment in pandas aligns on the frame index, so the augmented
frame has exactly one row per input bar.
-/

structure IndicatorRow where
  date : ℤ
  close : ℚ
  volume : ℚ
  ema9 : FVal
  ema20 : FVal
  ema21 : FVal
  ema50 : FVal
  rsi : FVal
  rsiEma20 : FVal
  macdLine : FVal
  signalLine : FVal
  macdHist : FVal
deriving DecidableEq, Repr, Inhabited

/-- The augmented frame: one `IndicatorRow` per input bar. -/
def augment (d : MarketData) : List IndicatorRow :=
  (List.range d.closes.length).map fun i =>
    { date := dateAt d i
      close := closeAt d i
      volume := volAt d i
      ema9 := calculate_ema d 9 i
      ema20 := calculate_ema d 20 i
      ema21 := calculate_ema d 21 i
      ema50 := calculate_ema d 50 i
      rsi := calculate_rsi d 14 i
      rsiEma20 := rsi_ema_20 d i
      macdLine := macd_line d i
      signalLine := signal_line d i
      macdHist := macd_hist d i }

/-!
### Spec-modelled EMA recursion (for the refinement claim C4)

Modelled from the spec: "`ema[0] = close[0]`,
`ema[i] = close[i]*α + ema[i-1]*(1-α)`" — the reference recursion the
source's `ewm(span=w, adjust=False).mean()` call is claimed to implement.
-/
def emaSpecRec (c : ℕ → ℚ) (α : ℚ) : ℕ → ℚ
  | 0 => c 0
  | i + 1 => c (i + 1) * α + emaSpecRec c α i * (1 - α)

/-- An all-constant series (closes all `C`, unit volumes, dates `0..n-1`). -/
def constSeries (C : ℚ) (n : ℕ) : MarketData :=
  { dates := (List.range n).map fun i => (i : ℤ)
    closes := List.replicate n C
    volumes := List.replicate n 1 }

/-!
### Concrete fixtures

`dVolSplit` is a 55-bar synthetic series engineered so that at the final
index 54 the crossover, trend-filter, momentum and MACD conditions all
hold and the final volume (200) beats the mean of the volumes at positions
`49..52` (100 each) but not the mean at positions `50..53` (which includes
the 1000 spike at position 53): the two volume baselines of the source
disagree there.  `dFifty` is a flat 50-bar series and `dRise` a strictly
rising 20-bar series.
-/

def closesSplit : List ℚ :=
  (List.replicate 30 100) ++
  [98, 96, 94, 92, 90, 88, 86, 84, 82, 80, 78, 76] ++
  [79, 155/2, 161/2, 79, 82, 161/2, 167/2, 82, 85, 167/2, 173/2, 85] ++
  [183/2]

def dVolSplit : MarketData :=
  { dates := (List.range 55).map fun i => (i : ℤ)
    closes := closesSplit
    volumes := (List.replicate 53 100) ++ [1000, 200] }

def dFifty : MarketData :=
  { dates := (List.range 50).map fun i => (i : ℤ)
    closes := List.replicate 50 100
    volumes := List.replicate 50 1 }

def dRise : MarketData :=
  { dates := (List.range 20).map fun i => (i : ℤ)
    closes := (List.range 20).map fun i => (i : ℚ) + 1
    volumes := List.replicate 20 1 }

def dThree : MarketData :=
  { dates := [0, 1, 2]
    closes := [10, 11, 12]
    volumes := [5, 5, 5] }

set_option maxRecDepth 10000

/-!
### Helper lemmas about the ewm kernel
-/

lemma ewmStep_val_val (α v c w : ℚ) :
    ewmStep α (FVal.val v, w) (FVal.val c)
      = (FVal.val ((w * (1 - α) * v + α * c) / (w * (1 - α) + α)), 1) := rfl

lemma ewmStep_nan_nan (α : ℚ) (w : ℚ) : ewmStep α (FVal.nan, w) FVal.nan = (FVal.nan, w) := rfl

/-- On an all-observation (`val`) input stream the pandas kernel follows the
plain EMA recursion: the state is the spec recursion's value with weight 1. -/
lemma ewmStates_val (x : ℕ → FVal) (c : ℕ → ℚ) (α : ℚ)
    (h : ∀ j, x j = FVal.val (c j)) :
    ∀ i, ewmStates α x i = (FVal.val (emaSpecRec c α i), 1) := by
  intro i
  induction i with
  | zero =>
      rw [ewmStates, h 0]
      rfl
  | succ n ih =>
      rw [ewmStates, ih, h (n + 1), ewmStep_val_val]
      have h1 : (1 : ℚ) * (1 - α) + α = 1 := by ring
      rw [h1, div_one]
      have h2 : (1 : ℚ) * (1 - α) * emaSpecRec c α n + α * c (n + 1)
          = c (n + 1) * α + emaSpecRec c α n * (1 - α) := by ring
      rw [h2]
      rfl

/-- While the input has produced no observation, the kernel state stays NaN. -/
lemma ewmStates_nan (x : ℕ → FVal) (α : ℚ) :
    ∀ i, (∀ j, j ≤ i → x j = FVal.nan) → ewmStates α x i = (FVal.nan, 1) := by
  intro i
  induction i with
  | zero =>
      intro h
      rw [ewmStates, h 0 (Nat.le_refl 0)]
  | succ n ih =>
      intro h
      rw [ewmStates, ih (fun j hj => h j (Nat.le_succ_of_le hj)),
        h (n + 1) (Nat.le_refl _), ewmStep_nan_nan]

/-- The spec EMA recursion is constant on constant input. -/
lemma emaSpecRec_const (c : ℕ → ℚ) (C α : ℚ) :
    ∀ i, (∀ j, j ≤ i → c j = C) → emaSpecRec c α i = C := by
  intro i
  induction i with
  | zero =>
      intro h
      rw [emaSpecRec, h 0 (Nat.le_refl 0)]
  | succ n ih =>
      intro h
      rw [emaSpecRec, ih (fun j hj => h j (Nat.le_succ_of_le hj)), h (n + 1) (Nat.le_refl _)]
      ring

/-- `calculate_ema` computes exactly the spec recursion (wrapped in `val`). -/
lemma calculate_ema_val (d : MarketData) (w i : ℕ) :
    calculate_ema d w i = FVal.val (emaSpecRec (closeAt d) (spanAlpha w) i) := by
  rw [calculate_ema, ewmMean, ewmStates_val (closeF d) (closeAt d) _ (fun j => rfl) i]

/-- The rational value of the MACD line. -/
def macdLineQ (d : MarketData) (i : ℕ) : ℚ :=
  emaSpecRec (closeAt d) (spanAlpha 12) i - emaSpecRec (closeAt d) (spanAlpha 26) i

lemma macd_line_val (d : MarketData) (i : ℕ) :
    macd_line d i = FVal.val (macdLineQ d i) := by
  rw [macd_line, calculate_ema_val, calculate_ema_val]
  rfl

/-- The rational value of the MACD signal line. -/
def signalLineQ (d : MarketData) (i : ℕ) : ℚ :=
  emaSpecRec (macdLineQ d) (spanAlpha 9) i

lemma signal_line_val (d : MarketData) (i : ℕ) :
    signal_line d i = FVal.val (signalLineQ d i) := by
  rw [signal_line, ewmMean,
    ewmStates_val (macd_line d) (macdLineQ d) _ (macd_line_val d) i]
  rfl

/-!
### Helper lemmas about the loops and the data model
-/

lemma closeAt_constSeries (C : ℚ) (n j : ℕ) (h : j < n) :
    closeAt (constSeries C n) j = C := by
  simp [closeAt, constSeries, List.getD_eq_getElem?_getD, List.getElem?_replicate, h]

/-- Unrolling the backtest loop: the accumulated signals are exactly the
filtered, mapped index list. -/
lemma foldl_backtestAccum (d : MarketData) :
    ∀ (l : List ℕ) (acc : List (ℤ × ℚ)),
      l.foldl (backtestAccum d) acc
        = acc ++ (l.filter (backtest_signal d)).map fun i => (dateAt d i, closeAt d i) := by
  intro l
  induction l with
  | nil => intro acc; simp
  | cons x xs ih =>
      intro acc
      by_cases h : backtest_signal d x
      · simp [backtestAccum, h, ih, List.filter_cons]
      · simp [backtestAccum, h, ih, List.filter_cons]

lemma backtest_signals_eq (d : MarketData) :
    backtest_signals d
      = ((List.range' 50 (d.closes.length - 50)).filter (backtest_signal d)).map
          fun i => (dateAt d i, closeAt d i) := by
  rw [backtest_signals, foldl_backtestAccum]
  simp

/-- The positive scan hits: `some (ticker, message)` when the oracle
reports a positive verdict for the ticker, `none` otherwise. -/
def scanHit (step : String → Except String (Bool × Option LiveMessage × Option Unit))
    (t : String) : Option (String × Option LiveMessage) :=
  match step t with
  | Except.ok (true, m, _) => some (t, m)
  | _ => none

/-- Unrolling the scan loop: notifications are the watchlist's positive
hits in order, and the counter counts them — an errored ticker contributes
nothing and aborts nothing. -/
lemma foldl_scanStep (step : String → Except String (Bool × Option LiveMessage × Option Unit)) :
    ∀ (ws : List String) (acc : List (String × Option LiveMessage) × ℕ),
      ws.foldl (scanStep step) acc
        = (acc.1 ++ ws.filterMap (scanHit step), acc.2 + (ws.filterMap (scanHit step)).length) := by
  intro ws
  induction ws with
  | nil => intro acc; simp
  | cons x xs ih =>
      intro acc
      rw [List.foldl_cons, ih]
      cases hx : step x with
      | error e =>
          simp [scanStep, scanHit, hx, List.filterMap_cons]
      | ok v =>
          obtain ⟨has, msg, ch⟩ := v
          cases has with
          | false => simp [scanStep, scanHit, hx, List.filterMap_cons]
          | true =>
              simp [scanStep, scanHit, hx, List.filterMap_cons]
              omega

/-!
### Claim theorems
-/

/-- C4: the EMA is the recursive adjust=false form with `α = 2/(window+1)`
seeded by the first close (`calculate_ema` agrees with the spec recursion
`emaSpecRec` at every index), and consequently on a constant series with
all closes equal to `C` the EMA equals `C` at the first bar and at every
subsequent in-range index. -/
theorem C4_ema_recursion_and_const :
    (∀ (d : MarketData) (w i : ℕ),
        calculate_ema d w i = FVal.val (emaSpecRec (closeAt d) (spanAlpha w) i))
    ∧ (∀ (C : ℚ) (n w i : ℕ), i < n →
        calculate_ema (constSeries C n) w i = FVal.val C) := by
  constructor
  · exact fun d w i => calculate_ema_val d w i
  · intro C n w i h
    rw [calculate_ema_val,
      emaSpecRec_const (closeAt (constSeries C n)) C (spanAlpha w) i
        (fun j hj => closeAt_constSeries C n j (lt_of_le_of_lt hj h))]

theorem C4_ema_recursion_and_const_witness :
    calculate_ema (constSeries 100 60) 50 10 = FVal.val 100 :=
  C4_ema_recursion_and_const.2 100 60 50 10 (by norm_num)

/-- C5: at every index the MACD histogram is exactly the MACD line minus
the signal line, where the line is `EMA(12) - EMA(26)` of the closes and
the signal is the `EMA(9)` of the line; all three are finite rationals. -/
theorem C5_macd_identity (d : MarketData) (i : ℕ) :
    ∃ l s : ℚ, macd_line d i = FVal.val l ∧ signal_line d i = FVal.val s
      ∧ macd_hist d i = FVal.val (l - s) := by
  refine ⟨macdLineQ d i, signalLineQ d i, macd_line_val d i, signal_line_val d i, ?_⟩
  rw [macd_hist, macd_line_val, signal_line_val]
  rfl

/-- C2 (amended): when the 14-period rolling mean of losses is 0 and the
mean of gains is positive, the RSI is exactly 100 — produced by the
division yielding +infinity, not by an explicit branch.  (When both means
are 0 the RSI is NaN instead; see the counterexample.) -/
theorem C2_rsi_zero_loss (d : MarketData) (i : ℕ) (g : ℚ)
    (hl : lossMean d 14 i = FVal.val 0) (hg : gainMean d 14 i = FVal.val g)
    (hgpos : 0 < g) :
    calculate_rsi d 14 i = FVal.val 100 := by
  have hg0 : g ≠ 0 := ne_of_gt hgpos
  rw [calculate_rsi, rs, hl, hg]
  simp [FVal.div, FVal.add, FVal.sub, hg0]

theorem C2_rsi_zero_loss_witness : calculate_rsi dRise 14 13 = FVal.val 100 :=
  C2_rsi_zero_loss dRise 13 (13 / 14) (by with_unfolding_all decide)
    (by with_unfolding_all decide) (by norm_num)

/-- C2 counterexample: on a flat series the 14-period loss mean is 0 at
index 13, yet the RSI there is NaN (the division is `0/0`), not 100 — the
zero-loss case is not handled explicitly and does not always yield 100. -/
theorem C2_rsi_zero_loss_counterexample :
    lossMean dFifty 14 13 = FVal.val 0 ∧ calculate_rsi dFifty 14 13 = FVal.nan
      ∧ FVal.nan ≠ FVal.val 100 := by
  with_unfolding_all decide

/-- C7: a series of 49 bars or fewer makes both the live check and the
backtest return their distinct insufficient-data outcome — an
informational message, not an exception, not a positive signal and not the
ordinary no-signal result (whose message field is `none`). -/
theorem C7_insufficient_data (d : MarketData) (h : d.closes.length ≤ 49) :
    check_daily_strategy (Except.ok d) = (false, some LiveMessage.insufficientData, none)
    ∧ backtest_strategy (Except.ok d) = BacktestResult.notEnoughData
    ∧ (check_daily_strategy (Except.ok d)).2.1 ≠ none := by
  have h50 : d.closes.length < 50 := by omega
  refine ⟨?_, ?_, ?_⟩ <;> simp [check_daily_strategy, backtest_strategy, h50]

theorem C7_insufficient_data_witness :
    check_daily_strategy (Except.ok dThree) = (false, some LiveMessage.insufficientData, none)
    ∧ backtest_strategy (Except.ok dThree) = BacktestResult.notEnoughData
    ∧ (check_daily_strategy (Except.ok dThree)).2.1 ≠ none :=
  C7_insufficient_data dThree (by decide)

/-- C8: for every per-ticker oracle (covering fetch, evaluation and
delivery, with exceptions modelled as `Except.error`) and every watchlist,
the batch scan's notifications are exactly the positive hits of the
watchlist in watchlist order — an errored ticker contributes nothing and
never aborts or alters the processing of the other tickers (the scan over
a concatenation is the concatenation of the scans) — and the no-signal
summary is sent exactly when there were no hits. -/
theorem C8_scan_isolation
    (step : String → Except String (Bool × Option LiveMessage × Option Unit))
    (watchlist : List String) :
    (send_auto_signals step watchlist).1 = watchlist.filterMap (scanHit step)
    ∧ (send_auto_signals step watchlist).2
        = ((watchlist.filterMap (scanHit step)).length == 0)
    ∧ (∀ ws1 ws2 : List String,
        (send_auto_signals step (ws1 ++ ws2)).1
          = (send_auto_signals step ws1).1 ++ (send_auto_signals step ws2).1) := by
  refine ⟨?_, ?_, ?_⟩
  · simp [send_auto_signals, foldl_scanStep]
  · simp [send_auto_signals, foldl_scanStep]
  · intro ws1 ws2
    simp [send_auto_signals, foldl_scanStep, List.filterMap_append]

/-- C9: if the RSI or its 20-EMA at the evaluated index is NaN (for
example inside the RSI warm-up, or on a degenerate window where both the
gain and the loss mean are zero), every comparison involving it is false,
so the momentum condition and with it the whole verdict are negative —
the evaluator is total and returns no positive signal. -/
theorem C9_nan_negative (d : MarketData) (i : ℕ)
    (h : calculate_rsi d 14 i = FVal.nan ∨ rsi_ema_20 d i = FVal.nan) :
    condition3 d i = false ∧ backtest_signal d i = false
    ∧ (i = d.closes.length - 1 → live_signal d = false) := by
  have h3 : condition3 d i = false := by
    cases h with
    | inl hh => simp [condition3, hh, FVal.leB]
    | inr hh => simp [condition3, hh, FVal.gtB, FVal.ltB]
  refine ⟨h3, by simp [backtest_signal, h3], ?_⟩
  intro he
  subst he
  simp [live_signal, h3]

theorem C9_nan_negative_witness :
    condition3 dFifty 49 = false ∧ backtest_signal dFifty 49 = false
    ∧ (49 = dFifty.closes.length - 1 → live_signal dFifty = false) :=
  C9_nan_negative dFifty 49 (Or.inl (by with_unfolding_all decide))

/-- C10: the live check is total (the caught-exception path is a return
value, not an escape) and always yields a triple in which the chart is
non-null only on a positive signal and a positive signal carries the
formatted buy message and a chart; moreover each cause maps to its own
message, so the three non-positive outcomes are distinguishable by the
message field alone: a caught fetch exception returns exactly
`(false, some (errorChecking e), none)`, a series of fewer than 50 bars
returns exactly `(false, some insufficientData, none)`, an ordinary
negative verdict returns exactly `(false, none, none)`, and a positive
verdict returns `(true, some (buySignal ...), some chart)`. -/
theorem C10_check_shape (f : Except String MarketData) :
    ((check_daily_strategy f).2.2 ≠ none → (check_daily_strategy f).1 = true)
    ∧ ((check_daily_strategy f).1 = true →
        (∃ dt c r, (check_daily_strategy f).2.1 = some (LiveMessage.buySignal dt c r))
        ∧ (check_daily_strategy f).2.2 = some ())
    ∧ ((check_daily_strategy f).1 = false →
        (check_daily_strategy f).2.2 = none
        ∧ ((check_daily_strategy f).2.1 = none
            ∨ (check_daily_strategy f).2.1 = some LiveMessage.insufficientData
            ∨ ∃ e, (check_daily_strategy f).2.1 = some (LiveMessage.errorChecking e)))
    ∧ (∀ e, f = Except.error e →
        check_daily_strategy f = (false, some (LiveMessage.errorChecking e), none))
    ∧ (∀ d, f = Except.ok d →
        (d.closes.length ≤ 49 →
          check_daily_strategy f = (false, some LiveMessage.insufficientData, none))
        ∧ (50 ≤ d.closes.length → live_signal d = false →
          check_daily_strategy f = (false, none, none))
        ∧ (50 ≤ d.closes.length → live_signal d = true →
          check_daily_strategy f
            = (true,
               some (LiveMessage.buySignal (dateAt d (d.closes.length - 1))
                  (closeAt d (d.closes.length - 1))
                  (calculate_rsi d 14 (d.closes.length - 1))),
               some ()))) := by
  cases f with
  | error e =>
      refine ⟨?_, ?_, ?_, ?_, ?_⟩
      · simp [check_daily_strategy]
      · simp [check_daily_strategy]
      · simp [check_daily_strategy]
      · intro e' h
        injection h with h2
        subst h2
        simp [check_daily_strategy]
      · intro d hd
        exact Except.noConfusion hd
  | ok d =>
      by_cases h50 : d.closes.length < 50
      · refine ⟨?_, ?_, ?_, fun e' h => Except.noConfusion h, ?_⟩
        · simp [check_daily_strategy, h50]
        · simp [check_daily_strategy, h50]
        · simp [check_daily_strategy, h50]
        · intro d' hd
          injection hd with h2
          subst h2
          refine ⟨fun _ => by simp [check_daily_strategy, h50], ?_, ?_⟩
          · intro hge _
            exact absurd hge (by omega)
          · intro hge _
            exact absurd hge (by omega)
      · refine ⟨?_, ?_, ?_, fun e' h => Except.noConfusion h, ?_⟩
        · by_cases hs : live_signal d <;> simp [check_daily_strategy, h50, hs]
        · by_cases hs : live_signal d <;> simp [check_daily_strategy, h50, hs]
        · by_cases hs : live_signal d <;> simp [check_daily_strategy, h50, hs]
        · intro d' hd
          injection hd with h2
          subst h2
          refine ⟨fun hle => absurd (by omega : d.closes.length < 50) h50, ?_, ?_⟩
          · intro _ hs
            simp [check_daily_strategy, h50, hs]
          · intro _ hs
            simp [check_daily_strategy, h50, hs]

/-- C1 (amended): at every evaluation index the verdict is the exact
conjunction of the five conditions (no partial credit), and a positive
live verdict carries a non-null explanation and chart; but the two
evaluators use different volume baselines: the backtest compares against
the mean of the volumes at positions `[i-5, i-1)` while the live check at
the final index compares against the mean at positions `[i-4, i)`. -/
theorem C1_rule_conjunction (d : MarketData) (i : ℕ)
    (h50 : 50 ≤ i) (hlen : i < d.closes.length) :
    (backtest_signal d i = true ↔
      (condition1 d i = true ∧ condition2 d i = true ∧ condition3 d i = true
        ∧ condition4 d i = true ∧ volAt d i > avgVolBacktest d i))
    ∧ (i = d.closes.length - 1 →
        (((check_daily_strategy (Except.ok d)).1 = true) ↔
          (condition1 d i = true ∧ condition2 d i = true ∧ condition3 d i = true
            ∧ condition4 d i = true ∧ volAt d i > avgVolLive d))
        ∧ ((check_daily_strategy (Except.ok d)).1 = true →
            (check_daily_strategy (Except.ok d)).2.1 ≠ none
            ∧ (check_daily_strategy (Except.ok d)).2.2 ≠ none)) := by
  have hnot : ¬ d.closes.length < 50 := by omega
  constructor
  · simp [backtest_signal, volume_condition_bt, Bool.and_eq_true, decide_eq_true_iff,
      and_assoc]
  · intro he
    have hch : (check_daily_strategy (Except.ok d)).1 = live_signal d := by
      by_cases hs : live_signal d <;> simp [check_daily_strategy, hnot, hs]
    constructor
    · rw [hch]
      subst he
      simp [live_signal, volume_condition_live, Bool.and_eq_true, decide_eq_true_iff,
        and_assoc]
    · intro hp
      rw [hch] at hp
      simp [check_daily_strategy, hnot, hp]

theorem C1_rule_conjunction_witness :
    (backtest_signal dVolSplit 54 = true ↔
      (condition1 dVolSplit 54 = true ∧ condition2 dVolSplit 54 = true
        ∧ condition3 dVolSplit 54 = true ∧ condition4 dVolSplit 54 = true
        ∧ volAt dVolSplit 54 > avgVolBacktest dVolSplit 54))
    ∧ (54 = dVolSplit.closes.length - 1 →
        (((check_daily_strategy (Except.ok dVolSplit)).1 = true) ↔
          (condition1 dVolSplit 54 = true ∧ condition2 dVolSplit 54 = true
            ∧ condition3 dVolSplit 54 = true ∧ condition4 dVolSplit 54 = true
            ∧ volAt dVolSplit 54 > avgVolLive dVolSplit))
        ∧ ((check_daily_strategy (Except.ok dVolSplit)).1 = true →
            (check_daily_strategy (Except.ok dVolSplit)).2.1 ≠ none
            ∧ (check_daily_strategy (Except.ok dVolSplit)).2.2 ≠ none)) :=
  C1_rule_conjunction dVolSplit 54 (by norm_num) (by with_unfolding_all decide)

/-- C1 counterexample: on `dVolSplit` the evaluation index 54 satisfies
`i ≥ 50` and is the final index; all five conditions of the claim — with
the claimed `[i-5, i-1)` volume baseline — hold there, and indeed the
backtest evaluator returns a positive verdict, yet the live evaluator
(`check_daily_strategy`) returns a negative one, because its volume
baseline is the mean over `[i-4, i)` which includes the 1000 spike. -/
theorem C1_rule_conjunction_counterexample :
    (condition1 dVolSplit 54 = true ∧ condition2 dVolSplit 54 = true
      ∧ condition3 dVolSplit 54 = true ∧ condition4 dVolSplit 54 = true
      ∧ volAt dVolSplit 54 > avgVolBacktest dVolSplit 54)
    ∧ 50 ≤ 54 ∧ dVolSplit.closes.length - 1 = 54
    ∧ backtest_signal dVolSplit 54 = true
    ∧ (check_daily_strategy (Except.ok dVolSplit)).1 = false := by
  with_unfolding_all decide

/-- C3 (amended): for every series of length at least 50, augmentation
returns one row per input bar; the RSI(14) and RSI-EMA(20) fields are NaN
at every index before 13 (until 14 bars of history exist); the EMA fields
and the MACD triple are seeded at the very first bar and are populated
(finite rationals, never NaN) at every index — their effective minimum
window is a single bar, not their period. -/
theorem C3_augment_warmup (d : MarketData) (h : 50 ≤ d.closes.length) :
    (augment d).length = d.closes.length
    ∧ (∀ i, i < 13 → calculate_rsi d 14 i = FVal.nan ∧ rsi_ema_20 d i = FVal.nan)
    ∧ (∀ i, (∃ q, calculate_ema d 9 i = FVal.val q) ∧ (∃ q, calculate_ema d 20 i = FVal.val q)
        ∧ (∃ q, calculate_ema d 21 i = FVal.val q) ∧ (∃ q, calculate_ema d 50 i = FVal.val q)
        ∧ (∃ q, macd_line d i = FVal.val q) ∧ (∃ q, signal_line d i = FVal.val q)
        ∧ (∃ q, macd_hist d i = FVal.val q)) := by
  have hrsi : ∀ k, k < 13 → calculate_rsi d 14 k = FVal.nan := by
    intro k hk
    have hw : k + 1 < 14 := by omega
    simp [calculate_rsi, rs, gainMean, lossMean, rollingMean, hw, FVal.div, FVal.add,
      FVal.sub]
  refine ⟨by simp [augment], ?_, ?_⟩
  · intro i hi
    refine ⟨hrsi i hi, ?_⟩
    rw [rsi_ema_20, ewmMean,
      ewmStates_nan (calculate_rsi d 14) (spanAlpha 20) i
        (fun j hj => hrsi j (lt_of_le_of_lt hj hi))]
  · intro i
    refine ⟨⟨emaSpecRec (closeAt d) (spanAlpha 9) i, calculate_ema_val d 9 i⟩,
      ⟨emaSpecRec (closeAt d) (spanAlpha 20) i, calculate_ema_val d 20 i⟩,
      ⟨emaSpecRec (closeAt d) (spanAlpha 21) i, calculate_ema_val d 21 i⟩,
      ⟨emaSpecRec (closeAt d) (spanAlpha 50) i, calculate_ema_val d 50 i⟩,
      ⟨macdLineQ d i, macd_line_val d i⟩, ⟨signalLineQ d i, signal_line_val d i⟩,
      ⟨macdLineQ d i - signalLineQ d i, ?_⟩⟩
    rw [macd_hist, macd_line_val, signal_line_val]
    rfl

theorem C3_augment_warmup_witness :
    (augment dFifty).length = dFifty.closes.length
    ∧ (∀ i, i < 13 → calculate_rsi dFifty 14 i = FVal.nan ∧ rsi_ema_20 dFifty i = FVal.nan)
    ∧ (∀ i, (∃ q, calculate_ema dFifty 9 i = FVal.val q)
        ∧ (∃ q, calculate_ema dFifty 20 i = FVal.val q)
        ∧ (∃ q, calculate_ema dFifty 21 i = FVal.val q)
        ∧ (∃ q, calculate_ema dFifty 50 i = FVal.val q)
        ∧ (∃ q, macd_line dFifty i = FVal.val q) ∧ (∃ q, signal_line dFifty i = FVal.val q)
        ∧ (∃ q, macd_hist dFifty i = FVal.val q)) :=
  C3_augment_warmup dFifty (by decide)

/-- C3 counterexample: on a valid 50-bar series the 9-period EMA field of
row 0 is already populated with the seed close (pandas `adjust=False`
seeds at the first bar), although index 0 lies before a 9-bar window —
the claim that every indicator field is NaN before its period-sized
window fails for the EMA fields. -/
theorem C3_augment_warmup_counterexample :
    50 ≤ dFifty.closes.length
    ∧ ((augment dFifty).getD 0 default).ema9 = FVal.val 100
    ∧ FVal.val (100 : ℚ) ≠ FVal.nan ∧ (0 : ℕ) < 9 - 1 := by
  with_unfolding_all decide

/-- C6: on a series of length `N ≥ 50` with strictly ascending timestamps
the backtest loop's signal list is exactly the positive verdicts over the
index list `range' 50 (N-50)` — the indices `50 .. N-1`, each visited once
in ascending order — mapped to `(date, close)` pairs, so the resulting
dates are strictly ascending; the outcome is never the error outcome, and
an empty signal list gives the distinct no-signals outcome. -/
theorem C6_backtest_order (d : MarketData) (hlen : 50 ≤ d.closes.length)
    (hdates : ∀ j, j < d.closes.length → ∀ i, i < j → dateAt d i < dateAt d j) :
    backtest_signals d
      = ((List.range' 50 (d.closes.length - 50)).filter (backtest_signal d)).map
          (fun i => (dateAt d i, closeAt d i))
    ∧ ((backtest_signals d).map Prod.fst).Pairwise (· < ·)
    ∧ (∀ e, backtest_strategy (Except.ok d) ≠ BacktestResult.error e)
    ∧ (backtest_signals d = [] → backtest_strategy (Except.ok d) = BacktestResult.noSignals) := by
  have hnot : ¬ d.closes.length < 50 := by omega
  have heq := backtest_signals_eq d
  refine ⟨heq, ?_, ?_, ?_⟩
  · have hpw : (List.range' 50 (d.closes.length - 50)).Pairwise (· < ·) :=
      List.pairwise_lt_range' 50 (d.closes.length - 50)
    have hf : ((List.range' 50 (d.closes.length - 50)).filter
        (backtest_signal d)).Pairwise (· < ·) :=
      List.Pairwise.sublist (List.filter_sublist _) hpw
    rw [heq, List.map_map]
    refine List.pairwise_map.mpr (List.Pairwise.imp_of_mem ?_ hf)
    intro a b ha hb hab
    have hb2 : b ∈ List.range' 50 (d.closes.length - 50) :=
      List.mem_of_mem_filter hb
    have hb3 : b < d.closes.length := by
      have := List.mem_range'_1.mp hb2
      omega
    exact hdates b hb3 a hab
  · intro e
    by_cases h0 : backtest_signals d = [] <;>
      simp [backtest_strategy, hnot, h0]
  · intro h0
    simp [backtest_strategy, hnot, h0]

theorem C6_backtest_order_witness :
    backtest_signals dFifty
      = ((List.range' 50 (dFifty.closes.length - 50)).filter (backtest_signal dFifty)).map
          (fun i => (dateAt dFifty i, closeAt dFifty i))
    ∧ ((backtest_signals dFifty).map Prod.fst).Pairwise (· < ·)
    ∧ (∀ e, backtest_strategy (Except.ok dFifty) ≠ BacktestResult.error e)
    ∧ (backtest_signals dFifty = [] →
        backtest_strategy (Except.ok dFifty) = BacktestResult.noSignals) :=
  C6_backtest_order dFifty (by decide) (by decide)
